import Mathlib

/-!
# Verification of the Shadow Webfetch Proxy core

Shallow embedding of `src/webfetch_proxy.py` (the fetch proxy service):
the security filter (`_is_domain_allowed`), the rate limiter
(`_check_rate_limit`), the fetch executor (`fetch_url`), the bulk
coordinator (`bulk_fetch`), and the HTTP front-end handlers
(`bulk_fetch_urls`, `get_config`) that the specification's claims refer
to, together with the domain filter of `src/opencode_plugin.py` and the
intelligence-recording tail of the archived
`src/archive/old_files/old_versions/webfetch_proxy.py`.

Modelling conventions:
* Python floats used only as timing stamps (`time.time() - start_time`)
  become abstract `Nat` time units supplied as an `elapsed` parameter.
* The outbound `aiohttp` call is abstracted by a `NetOutcome` parameter:
  the response it would produce, or a timeout, or a raised exception.
* Redis is modelled per request key: the rate counters of the calling
  client's current minute/hour buckets and the cache as an association
  list from cache key to stored response.  The md5/sha256 hex digests in
  the cache key are abstracted to the digested content itself; every
  claim depends only on the key being a deterministic function of
  (method, url, sorted header items), never on digest values.
* Observable side effects (console display, blocked-request logging,
  the outbound network call, cache writes, intelligence-record writes)
  are collected in an `Effect` trace returned alongside the result.
-/

/-- Characters permitted in a URL scheme by `urllib.parse`
(`scheme_chars = ascii letters + digits + "+-."`). -/
def scheme_chars (c : Char) : Bool :=
  c.isAlpha || c.isDigit || c == '+' || c == '-' || c == '.'

/-- Substring test on character lists, the meaning of Python's
`needle in haystack` for strings. -/
def list_infix (needle hay : List Char) : Bool :=
  match hay with
  | [] => needle.isEmpty
  | _ :: t => needle.isPrefixOf hay || list_infix needle t

/-- `str.lower` restricted to the ASCII case folding that domain names use. -/
def str_lower (s : String) : String := ⟨s.data.map Char.toLower⟩

/-- Strip a leading `scheme:` from the URL if the part before the first
colon is a valid scheme (non-empty, leading letter, only scheme
characters), as `urllib.parse.urlsplit` does. -/
def remove_scheme (l : List Char) : List Char :=
  match l.findIdx? (· == ':') with
  | none => l
  | some i =>
    let before := l.take i
    match before with
    | [] => l
    | c :: rest =>
      if c.isAlpha && rest.all scheme_chars then l.drop (i + 1) else l

/-- `urllib.parse.urlparse(url).netloc`: after stripping the scheme, if
the remainder starts with `//` the netloc runs to the next `/`, `?` or
`#`; a netloc with an unmatched square bracket raises
`ValueError("Invalid IPv6 URL")`, modelled as `Except.error`; a URL
without `//` has empty netloc.  Tab, CR and LF bytes are removed first,
as in `urlsplit`. -/
def urlparse_netloc (url : String) : Except String String :=
  let l := url.data.filter (fun c => !(c == '\t' || c == '\r' || c == '\n'))
  match remove_scheme l with
  | '/' :: '/' :: tail =>
    let netloc := tail.takeWhile (fun c => !(c == '/' || c == '?' || c == '#'))
    if (netloc.contains '[' && !netloc.contains ']')
        || (netloc.contains ']' && !netloc.contains '[') then
      Except.error "Invalid IPv6 URL"
    else
      Except.ok ⟨netloc⟩
  | _ => Except.ok ""

/-- `ShadowWebfetchProxy._is_domain_allowed` (src/webfetch_proxy.py
lines 295-312): lowercase the parsed netloc; blocked if any
blocked-domain entry is a substring; if an allow-list is configured,
blocked unless some allowed entry is a substring; a `urlparse` error is
caught and yields `False` (fail closed). -/
def is_domain_allowed (blocked_domains allowed_domains : List String)
    (url : String) : Bool :=
  match urlparse_netloc url with
  | Except.error _ => false
  | Except.ok netloc =>
    let domain := str_lower netloc
    if blocked_domains.any (fun b => list_infix b.data domain.data) then
      false
    else if !allowed_domains.isEmpty
        && !allowed_domains.any (fun a => list_infix a.data domain.data) then
      false
    else
      true

/-- `_is_domain_allowed` of `src/opencode_plugin.py` lines 218-237: the
same policy body, but its `except` clause returns `True`
("Allow by default if check fails", fail open). -/
def opencode_is_domain_allowed (blocked_domains allowed_domains : List String)
    (url : String) : Bool :=
  match urlparse_netloc url with
  | Except.error _ => true
  | Except.ok netloc =>
    let domain := str_lower netloc
    if blocked_domains.any (fun b => list_infix b.data domain.data) then
      false
    else if !allowed_domains.isEmpty
        && !allowed_domains.any (fun a => list_infix a.data domain.data) then
      false
    else
      true

/-- The `ProxyResponse` dataclass (src/webfetch_proxy.py lines 101-113).
Note it has no field marking a response as served from cache. -/
structure ProxyResponse where
  status_code : Nat
  content : String
  headers : List (String × String)
  url : String
  final_url : String
  execution_time : Nat
  size : Nat
  success : Bool
  error : Option String := none
deriving DecidableEq

/-- The `FetchRequest` pydantic model (src/webfetch_proxy.py
lines 116-134), with the same defaults. -/
structure FetchRequest where
  url : String
  method : String := "GET"
  headers : Option (List (String × String)) := none
  data : Option String := none
  timeout : Nat := 30
  follow_redirects : Bool := true
  verify_ssl : Bool := true
  user_agent : Option String := none
  cookies : Option (List (String × String)) := none
  allow_status_codes : Option (List Nat) := none
  cache_enabled : Bool := true
  intelligence_tags : Option (List String) := none
deriving DecidableEq

/-- The `BulkFetchRequest` pydantic model (src/webfetch_proxy.py
lines 137-147). -/
structure BulkFetchRequest where
  urls : List String
  concurrent_limit : Nat := 5
  intelligence_tags : Option (List String) := none
  common_headers : Option (List (String × String)) := none

/-- The rate-limit counters the proxy keeps in Redis for one client key:
the current minute-bucket and hour-bucket counts
(`rate_limit:{key}:{YYYYmmddHHMM}` and `rate_limit:{key}:{YYYYmmddHH}`). -/
structure RateCounters where
  minute : Nat
  hour : Nat
deriving DecidableEq

/-- The slice of Redis state one `fetch_url` call touches: the calling
client's rate counters in the current window and the proxy cache as an
association list keyed by cache key (a `get` on an absent or expired key
returns nothing, so TTL expiry is folded into absence). -/
structure RedisState where
  rate : RateCounters
  cache : List (String × ProxyResponse)
deriving DecidableEq

/-- Observable side effects of one proxy operation, in program order. -/
inductive Effect where
  /-- `display_request` console output; the flag is its `cached` argument. -/
  | display (cached : Bool)
  /-- `_log_blocked_request(request, reason, details)`. -/
  | logBlocked (reason : String) (details : String)
  /-- the outbound `session.request(method, url, ...)` network call. -/
  | netCall (method : String) (url : String)
  /-- `_cache_response(cache_key, response)`. -/
  | cacheWrite (cache_key : String)
  /-- `_save_intelligence(record)`: appending one intelligence record. -/
  | intelWrite
deriving DecidableEq

/-- Outcome of the outbound HTTP call, an input to the model: the
response `aiohttp` delivers, an `asyncio.TimeoutError`, or any other
exception with its message. -/
inductive NetOutcome where
  | ok (status : Nat) (content : String) (headers : List (String × String))
      (final_url : String)
  | timeout
  | exn (msg : String)
deriving DecidableEq

/-- The configuration slice `fetch_url` consults. -/
structure ProxyCtx where
  blocked_domains : List String
  allowed_domains : List String
  rate_limiting_enabled : Bool
  show_requests : Bool := true
deriving DecidableEq

/-- Ordering of header items used to model Python's
`sorted(request.headers.items())`. -/
def chars_le : List Char → List Char → Bool
  | [], _ => true
  | _ :: _, [] => false
  | a :: as, b :: bs => if a = b then chars_le as bs else a.toNat ≤ b.toNat

/-- Lexicographic order on `(key, value)` header items. -/
def pair_le (a b : String × String) : Bool :=
  if a.1 = b.1 then chars_le a.2.data b.2.data else chars_le a.1.data b.1.data

/-- Insertion into a sorted list of header items. -/
def insert_pair (x : String × String) : List (String × String) → List (String × String)
  | [] => [x]
  | y :: ys => if pair_le x y then x :: y :: ys else y :: insert_pair x ys

/-- `sorted(headers.items())`. -/
def sort_pairs : List (String × String) → List (String × String)
  | [] => []
  | x :: xs => insert_pair x (sort_pairs xs)

/-- Rendering of the sorted header items that stands in for
`str(sorted(request.headers.items()))` before it is digested. -/
def render_headers : List (String × String) → String
  | [] => ""
  | (k, v) :: rest => k ++ "=" ++ v ++ ";" ++ render_headers rest

/-- `ShadowWebfetchProxy._generate_cache_key` (lines 285-293):
`"{method}:{url}:{headers_str}"` where `headers_str` is the digest of the
sorted header items when headers are present (Python truthiness: an
empty dict also yields `""`).  Hex digests are abstracted to the
digested content; claims use only that the key is a deterministic
function of (method, url, sorted header items). -/
def generate_cache_key (req : FetchRequest) : String :=
  let headers_str :=
    match req.headers with
    | none => ""
    | some [] => ""
    | some h => render_headers (sort_pairs h)
  req.method ++ ":" ++ req.url ++ ":" ++ headers_str

/-- `ShadowWebfetchProxy._check_rate_limit` (lines 314-342): a no-op
returning `True` when rate limiting is disabled in the config or when no
Redis client exists; otherwise reject without incrementing when the
minute count is at least 60 or the hour count is at least 1000, and
accept incrementing both counters otherwise. -/
def check_rate_limit (enabled : Bool) (redis : Option RedisState) :
    Bool × Option RedisState :=
  if !enabled then
    (true, redis)
  else
    match redis with
    | none => (true, none)
    | some st =>
      if st.rate.minute ≥ 60 || st.rate.hour ≥ 1000 then
        (false, some st)
      else
        (true, some { st with
          rate := { minute := st.rate.minute + 1, hour := st.rate.hour + 1 } })

/-- `ShadowWebfetchProxy._get_cached_response` (lines 344-356): nothing
without a Redis client, else the entry stored under the key (retrieval
failures are caught and yield nothing, folded into absence). -/
def get_cached (redis : Option RedisState) (cache_key : String) :
    Option ProxyResponse :=
  match redis with
  | none => none
  | some st => (st.cache.find? (fun kv => kv.1 == cache_key)).map (·.2)

/-- `ShadowWebfetchProxy._cache_response` (lines 358-370): a no-op
without a Redis client, else `setex` stores the response under the key,
replacing any previous entry. -/
def cache_store (redis : Option RedisState) (cache_key : String)
    (resp : ProxyResponse) : Option RedisState :=
  match redis with
  | none => none
  | some st =>
    some { st with
      cache := (cache_key, resp) :: st.cache.filter (fun kv => !(kv.1 == cache_key)) }

/-- The `success` expression of the completed-response path (lines
536-538): `(200 <= status < 400) if not request.allow_status_codes else
status in request.allow_status_codes`.  Python truthiness makes `None`
and the empty list both take the default-range branch. -/
def status_success (allow_status_codes : Option (List Nat)) (status : Nat) : Bool :=
  match allow_status_codes with
  | none => decide (200 ≤ status ∧ status < 400)
  | some [] => decide (200 ≤ status ∧ status < 400)
  | some l => l.contains status

/-- `ShadowWebfetchProxy.fetch_url` (lines 415-591).  Inputs beyond the
request: the configuration slice, the per-key Redis view, the outcome
the network would deliver, and the elapsed-time stamp.  Output: the
`ProxyResponse`, the Redis state after the call, and the effect trace.
The function is total: every failure mode of the source is a returned
response, never a propagated exception. -/
def fetch_url (ctx : ProxyCtx) (req : FetchRequest) (redis : Option RedisState)
    (net : NetOutcome) (elapsed : Nat) :
    ProxyResponse × Option RedisState × List Effect :=
  let tr0 : List Effect := if ctx.show_requests then [Effect.display false] else []
  if !is_domain_allowed ctx.blocked_domains ctx.allowed_domains req.url then
    ({ status_code := 403, content := "Domain not allowed", headers := [],
       url := req.url, final_url := req.url, execution_time := elapsed,
       size := 0, success := false,
       error := some "Domain blocked by security policy" },
     redis,
     tr0 ++ [Effect.logBlocked "DOMAIN_BLOCKED" "Domain blocked by security policy"])
  else
    match check_rate_limit ctx.rate_limiting_enabled redis with
    | (rate_ok, redis1) =>
      if !rate_ok then
        ({ status_code := 429, content := "Rate limit exceeded", headers := [],
           url := req.url, final_url := req.url, execution_time := elapsed,
           size := 0, success := false, error := some "Rate limit exceeded" },
         redis1,
         tr0 ++ [Effect.logBlocked "RATE_LIMIT" "Rate limit exceeded"])
      else
        let cache_key := generate_cache_key req
        match if req.cache_enabled then get_cached redis1 cache_key else none with
        | some cached_response =>
          ({ cached_response with execution_time := elapsed },
           redis1,
           tr0 ++ (if ctx.show_requests then [Effect.display true] else []))
        | none =>
          match net with
          | NetOutcome.ok status content hdrs final_url =>
            let proxy_response : ProxyResponse :=
              { status_code := status, content := content, headers := hdrs,
                url := req.url, final_url := final_url,
                execution_time := elapsed, size := content.utf8ByteSize,
                success := status_success req.allow_status_codes status }
            let redis2 :=
              if proxy_response.success && req.cache_enabled then
                cache_store redis1 cache_key proxy_response
              else redis1
            (proxy_response, redis2,
             tr0 ++ [Effect.netCall req.method req.url]
                 ++ (if proxy_response.success && req.cache_enabled then
                      [Effect.cacheWrite cache_key] else [])
                 ++ (if ctx.show_requests then [Effect.display false] else []))
          | NetOutcome.timeout =>
            ({ status_code := 408, content := "Request timeout", headers := [],
               url := req.url, final_url := req.url,
               execution_time := req.timeout, size := 0, success := false,
               error := some "Request timeout" },
             redis1,
             tr0 ++ [Effect.netCall req.method req.url,
                     Effect.logBlocked "TIMEOUT" "Request timeout"])
          | NetOutcome.exn msg =>
            ({ status_code := 500, content := msg, headers := [],
               url := req.url, final_url := req.url,
               execution_time := elapsed, size := 0, success := false,
               error := some msg },
             redis1,
             tr0 ++ [Effect.netCall req.method req.url,
                     Effect.logBlocked "ERROR" msg])

/-- The failure response the bulk handler builds at index `i` when the
slot's awaited value is an exception (lines 615-628). -/
def bulk_exc_response (url msg : String) : ProxyResponse :=
  { status_code := 500, content := msg, headers := [], url := url,
    final_url := url, execution_time := 0, size := 0, success := false,
    error := some msg }

/-- `ShadowWebfetchProxy.bulk_fetch` (lines 593-632).  One
`fetch_with_semaphore` task per URL is created in input order; with
`return_exceptions=True`, `asyncio.gather` yields one slot per task in
task order: `outcome i` abstracts the awaited value of task `i`, either
the `ProxyResponse` its `fetch_url` call returned or the exception the
call raised.  The post-processing loop replaces an exception at index
`i` with a failure response carrying `urls[i]`.  The second component of
the result is the trace of underlying fetches performed: the URL of each
task launched. -/
def bulk_fetch (urls : List String)
    (outcome : Nat → Except String ProxyResponse) :
    List ProxyResponse × List String :=
  let results := (List.range urls.length).map outcome
  let processed := results.enum.map (fun ir =>
    match ir.2 with
    | Except.ok r => r
    | Except.error msg => bulk_exc_response (urls.getD ir.1 "") msg)
  (processed, urls)

/-- The JSON body shape returned by `POST /fetch/bulk`
(`total_urls`, `successful`, `failed`, `results`). -/
structure BulkEndpointResponse where
  total_urls : Nat
  successful : Nat
  failed : Nat
  results : List ProxyResponse
deriving DecidableEq

/-- The `bulk_fetch_urls` handler for `POST /fetch/bulk`
(src/webfetch_proxy.py lines 746-822).  The body awaits
`proxy.bulk_fetch(request, api_key)` twice — once at line 766 (its
results feed only the logged summary) and again at line 785 — and the
response is built from the second run's results.  `out1` and `out2`
abstract the task outcomes of the two runs; the second component
concatenates the fetch traces of both runs. -/
def bulk_fetch_urls_endpoint (req : BulkFetchRequest)
    (out1 out2 : Nat → Except String ProxyResponse) :
    BulkEndpointResponse × List String :=
  let run1 := bulk_fetch req.urls out1
  let run2 := bulk_fetch req.urls out2
  let successful := (run2.1.filter (fun r => r.success)).length
  let failed := (run2.1.filter (fun r => !r.success)).length
  ({ total_urls := req.urls.length, successful := successful,
     failed := failed, results := run2.1 },
   run1.2 ++ run2.2)

/-- The tail of the success path of the archived
`ShadowWebfetchProxy.fetch_url`
(src/archive/old_files/old_versions/webfetch_proxy.py lines 523-545),
which the current version dropped: after building the response, cache it
when successful and cache-enabled, then, when intelligence is enabled,
build an `IntelligenceRecord` and `await self._save_intelligence(record)`
— one appended record per completed fetch. -/
def old_version_success_tail (intelligence_enabled : Bool)
    (cache_write : Option String) : List Effect :=
  (match cache_write with
   | some cache_key => [Effect.cacheWrite cache_key]
   | none => []) ++
  (if intelligence_enabled then [Effect.intelWrite] else [])

/-- Python values as they occur in the proxy's configuration mapping:
leaves, or a reference to a mutable nested `dict` object in the heap. -/
inductive PyVal where
  | vstr (s : String)
  | vnone
  | vint (n : Int)
  | vbool (b : Bool)
  | vlist (l : List String)
  | vref (addr : Nat)
deriving DecidableEq

/-- A Python `dict` with string keys, as an insertion-ordered
association list. -/
abbrev PyDict := List (String × PyVal)

/-- `d[k]` lookup / `k in d` membership. -/
def dict_get (d : PyDict) (k : String) : Option PyVal :=
  (d.find? (fun kv => kv.1 == k)).map (·.2)

/-- `d[k] = v`: replace in place when the key exists, append otherwise. -/
def dict_set (d : PyDict) (k : String) (v : PyVal) : PyDict :=
  if d.any (fun kv => kv.1 == k) then
    d.map (fun kv => if kv.1 == k then (k, v) else kv)
  else
    d ++ [(k, v)]

/-- The proxy's in-memory configuration `proxy.config.config`: the
top-level dict plus the heap of nested dict objects that `vref`
addresses point into.  `dict.copy()` copies only the top-level entry
list; the `vref` addresses inside it still denote the same heap
objects. -/
structure ConfigHeap where
  top : PyDict
  objs : List PyDict
deriving DecidableEq

/-- Dereference a heap address. -/
def heap_dict (h : ConfigHeap) (addr : Nat) : PyDict :=
  h.objs.getD addr []

/-- Read `config["security"]["api_key"]` through the heap. -/
def security_api_key (h : ConfigHeap) (d : PyDict) : Option PyVal :=
  match dict_get d "security" with
  | some (PyVal.vref addr) => dict_get (heap_dict h addr) "api_key"
  | _ => none

/-- The `get_config` handler for `GET /config` (src/webfetch_proxy.py
lines 928-937): `config = proxy.config.config.copy()` (a shallow copy —
the same top-level entries, sharing every nested dict), then, when
`"security" in config and "api_key" in config["security"]`, the
assignment `config["security"]["api_key"] = "***REDACTED***"` writes
into the shared nested dict on the heap.  Returns the response dict and
the proxy's configuration state after the call. -/
def get_config (st : ConfigHeap) : PyDict × ConfigHeap :=
  let config : PyDict := st.top
  match dict_get config "security" with
  | some (PyVal.vref addr) =>
    if (heap_dict st addr).any (fun kv => kv.1 == "api_key") then
      let st' : ConfigHeap :=
        { st with
          objs := st.objs.set addr
            (dict_set (heap_dict st addr) "api_key" (PyVal.vstr "***REDACTED***")) }
      (config, st')
    else
      (config, st)
  | _ => (config, st)

/-- One proxied request of a single client as a transition on the
per-key Redis view: the Redis state `fetch_url` leaves behind. -/
def request_step (ctx : ProxyCtx) (req : FetchRequest) (net : NetOutcome)
    (elapsed : Nat) (redis : Option RedisState) : Option RedisState :=
  (fetch_url ctx req redis net elapsed).2.1

/-- A configuration with nothing blocked, no allow-list, rate limiting
off and request display on, for concrete runs. -/
def demo_ctx : ProxyCtx := ⟨[], [], false, true⟩

/-- A default `FetchRequest` for `http://example.com/`. -/
def demo_req : FetchRequest := { url := "http://example.com/" }

/-- A 200 network outcome for `http://example.com/`. -/
def demo_net : NetOutcome :=
  NetOutcome.ok 200 "hello" [] "http://example.com/"

/-- The response a successful earlier fetch of `demo_req` stored in the
cache (its recorded `execution_time` was 99 units). -/
def demo_cached : ProxyResponse :=
  { status_code := 200, content := "hello", headers := [],
    url := "http://example.com/", final_url := "http://example.com/",
    execution_time := 99, size := 5, success := true, error := none }

/-- A concrete proxy configuration state: the top-level dict holds
references to the nested `proxy` and `security` dicts on the heap, and
`security.api_key` is the secret `"secret"`. -/
def demo_config : ConfigHeap :=
  { top := [("proxy", PyVal.vref 0), ("security", PyVal.vref 1)],
    objs := [[("host", PyVal.vstr "0.0.0.0"), ("port", PyVal.vint 8081)],
             [("api_key", PyVal.vstr "secret"),
              ("allowed_domains", PyVal.vlist []),
              ("blocked_domains", PyVal.vlist [])]] }

/-!  ## Claim theorems  -/

/-- An accepted request (rate limiting on, domain allowed, counters
below both caps) increments both rate counters by one, whichever path —
cache hit, network success, timeout or error — the call then takes. -/
theorem request_step_rate_increment (ctx : ProxyCtx) (req : FetchRequest)
    (net : NetOutcome) (elapsed : Nat) (rl : RateCounters)
    (cache : List (String × ProxyResponse))
    (hdom : is_domain_allowed ctx.blocked_domains ctx.allowed_domains
      req.url = true)
    (hen : ctx.rate_limiting_enabled = true)
    (hmin : rl.minute < 60) (hhr : rl.hour < 1000) :
    ∃ cache2, request_step ctx req net elapsed (some ⟨rl, cache⟩) =
      some ⟨⟨rl.minute + 1, rl.hour + 1⟩, cache2⟩ := by
  have hcond : (decide (rl.minute ≥ 60) || decide (rl.hour ≥ 1000)) = false := by
    simp; omega
  have hcr : check_rate_limit ctx.rate_limiting_enabled (some ⟨rl, cache⟩) =
      (true, some ⟨⟨rl.minute + 1, rl.hour + 1⟩, cache⟩) := by
    simp only [check_rate_limit, hen, Bool.not_true, Bool.false_eq_true,
      if_false, hcond]
  simp only [request_step, fetch_url, hdom, Bool.not_true, Bool.false_eq_true,
    if_false, hcr]
  rcases hc : (if req.cache_enabled = true then
      get_cached (some ⟨⟨rl.minute + 1, rl.hour + 1⟩, cache⟩)
        (generate_cache_key req) else none) with _ | cached
  · rcases net with ⟨status, content, hdrs, final_url⟩ | _ | msg
    · simp only
      split
      · exact ⟨_, rfl⟩
      · exact ⟨cache, rfl⟩
    · exact ⟨cache, rfl⟩
    · exact ⟨cache, rfl⟩
  · exact ⟨cache, rfl⟩

/-- Starting from fresh counters, `n ≤ 60` requests of one client within
the same minute window leave the minute and hour counters at `n`. -/
theorem request_step_iterate_counters (ctx : ProxyCtx) (req : FetchRequest)
    (net : NetOutcome) (elapsed : Nat) (cache : List (String × ProxyResponse))
    (hdom : is_domain_allowed ctx.blocked_domains ctx.allowed_domains
      req.url = true)
    (hen : ctx.rate_limiting_enabled = true) :
    ∀ n, n ≤ 60 →
      ∃ cache2, (request_step ctx req net elapsed)^[n] (some ⟨⟨0, 0⟩, cache⟩) =
        some ⟨⟨n, n⟩, cache2⟩ := by
  intro n
  induction n with
  | zero => exact fun _ => ⟨cache, rfl⟩
  | succ k ih =>
    intro hk
    obtain ⟨c2, hc2⟩ := ih (Nat.le_of_succ_le hk)
    rw [Function.iterate_succ_apply', hc2]
    exact request_step_rate_increment ctx req net elapsed ⟨k, k⟩ c2 hdom hen
      (show k < 60 by omega) (show k < 1000 by omega)

/-- C4: the rate-limit check reads the minute and hour counters; with
both caps hit or exceeded the call is rejected and neither counter is
incremented; an accepted call increments both.  Consequently a client's
61st request within the same minute window (after 60 accepted ones from
fresh counters) comes back from `fetch_url` with `success = false` and
status 429. -/
theorem rate_limit_caps_and_61st_request :
    (∀ st : RedisState, st.rate.minute ≥ 60 ∨ st.rate.hour ≥ 1000 →
      check_rate_limit true (some st) = (false, some st)) ∧
    (∀ st : RedisState, st.rate.minute < 60 → st.rate.hour < 1000 →
      check_rate_limit true (some st) =
        (true, some { st with
          rate := ⟨st.rate.minute + 1, st.rate.hour + 1⟩ })) ∧
    (∀ (ctx : ProxyCtx) (req : FetchRequest) (net : NetOutcome)
      (elapsed : Nat) (cache : List (String × ProxyResponse)),
      ctx.rate_limiting_enabled = true →
      is_domain_allowed ctx.blocked_domains ctx.allowed_domains req.url = true →
      (fetch_url ctx req
          ((request_step ctx req net elapsed)^[60] (some ⟨⟨0, 0⟩, cache⟩))
          net elapsed).1.status_code = 429 ∧
      (fetch_url ctx req
          ((request_step ctx req net elapsed)^[60] (some ⟨⟨0, 0⟩, cache⟩))
          net elapsed).1.success = false) := by
  refine ⟨fun st h => ?_, fun st hmin hhr => ?_, fun ctx req net elapsed cache hen hdom => ?_⟩
  · have hcond : (decide (st.rate.minute ≥ 60) || decide (st.rate.hour ≥ 1000))
        = true := by
      rcases h with h | h <;> simp [h]
    simp only [check_rate_limit, Bool.not_true, Bool.false_eq_true, if_false,
      hcond, if_true]
  · have hcond : (decide (st.rate.minute ≥ 60) || decide (st.rate.hour ≥ 1000))
        = false := by
      simp; omega
    simp only [check_rate_limit, Bool.not_true, Bool.false_eq_true, if_false,
      hcond]
  · obtain ⟨c2, hc2⟩ := request_step_iterate_counters ctx req net elapsed cache
      hdom hen 60 le_rfl
    have hcr : check_rate_limit ctx.rate_limiting_enabled
        (some ⟨⟨60, 60⟩, c2⟩) = (false, some ⟨⟨60, 60⟩, c2⟩) := by
      simp [check_rate_limit, hen]
    rw [hc2]
    constructor <;> simp [fetch_url, hdom, hcr]

/-- Witness for C4: rejection at a full minute counter leaves the
counters untouched, and the 61st request of a fresh client against an
allowed URL is answered 429. -/
theorem rate_limit_caps_and_61st_request_witness :
    check_rate_limit true (some ⟨⟨60, 0⟩, []⟩) = (false, some ⟨⟨60, 0⟩, []⟩) ∧
    (fetch_url ⟨[], [], true, true⟩ { url := "http://example.com/" }
        ((request_step ⟨[], [], true, true⟩ { url := "http://example.com/" }
            (NetOutcome.ok 200 "ok" [] "http://example.com/") 1)^[60]
          (some ⟨⟨0, 0⟩, []⟩))
        (NetOutcome.ok 200 "ok" [] "http://example.com/") 1).1.status_code
      = 429 :=
  ⟨rate_limit_caps_and_61st_request.1 ⟨⟨60, 0⟩, []⟩ (Or.inl (by decide)),
   (rate_limit_caps_and_61st_request.2.2 ⟨[], [], true, true⟩
      { url := "http://example.com/" }
      (NetOutcome.ok 200 "ok" [] "http://example.com/") 1 [] rfl (by decide)).1⟩

/-- C1: `fetch_url` always returns a structured `ProxyResponse` (the
model is a total function, mirroring the source's try/except around the
whole body): a domain-policy rejection yields status 403, a rate-limit
rejection 429; when the outbound call times out the result has
`success = false`, status 408 and the timeout-specific error; when any
other exception occurs the result has `success = false`, status 500 and
the exception's message as error. -/
theorem fetch_url_error_taxonomy (ctx : ProxyCtx) (req : FetchRequest)
    (redis : Option RedisState) (net : NetOutcome) (elapsed : Nat) :
    (is_domain_allowed ctx.blocked_domains ctx.allowed_domains req.url = false →
      (fetch_url ctx req redis net elapsed).1.status_code = 403 ∧
      (fetch_url ctx req redis net elapsed).1.success = false ∧
      (fetch_url ctx req redis net elapsed).1.error =
        some "Domain blocked by security policy") ∧
    (is_domain_allowed ctx.blocked_domains ctx.allowed_domains req.url = true →
      (check_rate_limit ctx.rate_limiting_enabled redis).1 = false →
      (fetch_url ctx req redis net elapsed).1.status_code = 429 ∧
      (fetch_url ctx req redis net elapsed).1.success = false ∧
      (fetch_url ctx req redis net elapsed).1.error = some "Rate limit exceeded") ∧
    (is_domain_allowed ctx.blocked_domains ctx.allowed_domains req.url = true →
      (check_rate_limit ctx.rate_limiting_enabled redis).1 = true →
      (if req.cache_enabled then
          get_cached (check_rate_limit ctx.rate_limiting_enabled redis).2
            (generate_cache_key req)
        else none) = none →
      (net = NetOutcome.timeout →
        (fetch_url ctx req redis net elapsed).1.status_code = 408 ∧
        (fetch_url ctx req redis net elapsed).1.success = false ∧
        (fetch_url ctx req redis net elapsed).1.error = some "Request timeout") ∧
      (∀ msg, net = NetOutcome.exn msg →
        (fetch_url ctx req redis net elapsed).1.status_code = 500 ∧
        (fetch_url ctx req redis net elapsed).1.success = false ∧
        (fetch_url ctx req redis net elapsed).1.error = some msg)) := by
  rcases hcr : check_rate_limit ctx.rate_limiting_enabled redis with ⟨rate_ok, redis1⟩
  refine ⟨fun hdom => ?_, fun hdom hrate => ?_, fun hdom hrate hcache => ?_⟩
  · simp [fetch_url, hdom]
  · simp at hrate
    simp [fetch_url, hdom, hcr, hrate]
  · simp at hrate
    subst hrate
    constructor
    · rintro rfl
      simp [fetch_url, hdom, hcr, hcache]
    · rintro msg rfl
      simp [fetch_url, hdom, hcr, hcache]

/-- Witness for C1 at a concrete input: a blocked domain gives 403 and a
timeout on an allowed domain gives 408. -/
theorem fetch_url_error_taxonomy_witness :
    ((fetch_url ⟨["evil.com"], [], false, true⟩ { url := "http://evil.com/x" }
        none NetOutcome.timeout 1).1.status_code = 403 ∧
      (fetch_url ⟨["evil.com"], [], false, true⟩ { url := "http://evil.com/x" }
        none NetOutcome.timeout 1).1.success = false ∧
      (fetch_url ⟨["evil.com"], [], false, true⟩ { url := "http://evil.com/x" }
        none NetOutcome.timeout 1).1.error =
        some "Domain blocked by security policy") ∧
    ((fetch_url ⟨[], [], false, true⟩ { url := "http://example.com/" }
        none NetOutcome.timeout 2).1.status_code = 408 ∧
      (fetch_url ⟨[], [], false, true⟩ { url := "http://example.com/" }
        none NetOutcome.timeout 2).1.success = false ∧
      (fetch_url ⟨[], [], false, true⟩ { url := "http://example.com/" }
        none NetOutcome.timeout 2).1.error = some "Request timeout") :=
  ⟨(fetch_url_error_taxonomy ⟨["evil.com"], [], false, true⟩
      { url := "http://evil.com/x" } none NetOutcome.timeout 1).1 (by decide),
   ((fetch_url_error_taxonomy ⟨[], [], false, true⟩
      { url := "http://example.com/" } none NetOutcome.timeout 2).2.2
      (by decide) (by decide) (by decide)).1 rfl⟩

/-- C2: whenever the parsed network host of the request URL contains a
configured blocked-domain entry as a substring, `fetch_url` returns a
result with `success = false` and status 403 and performs no outbound
network call — for every allow-list, cache state and rate-limit state. -/
theorem blocked_domain_rejected_without_network (ctx : ProxyCtx)
    (req : FetchRequest) (redis : Option RedisState) (net : NetOutcome)
    (elapsed : Nat) (host b : String)
    (hnet : urlparse_netloc req.url = Except.ok host)
    (hb : b ∈ ctx.blocked_domains)
    (hinf : list_infix b.data (str_lower host).data = true) :
    (fetch_url ctx req redis net elapsed).1.status_code = 403 ∧
    (fetch_url ctx req redis net elapsed).1.success = false ∧
    ∀ m u, Effect.netCall m u ∉ (fetch_url ctx req redis net elapsed).2.2 := by
  have hany : ctx.blocked_domains.any
      (fun bd => list_infix bd.data (str_lower host).data) = true :=
    List.any_eq_true.mpr ⟨b, hb, hinf⟩
  have hdom : is_domain_allowed ctx.blocked_domains ctx.allowed_domains
      req.url = false := by
    simp only [is_domain_allowed, hnet]
    rw [hany]
    simp
  refine ⟨?_, ?_, ?_⟩ <;> simp [fetch_url, hdom]

/-- Witness for C2: `http://EVIL.com/page` against blocked entry
`evil.com`, with an allow-list that even lists the host, a populated
cache and fresh rate counters. -/
theorem blocked_domain_rejected_without_network_witness :
    (fetch_url ⟨["evil.com"], ["evil.com"], true, true⟩
        { url := "http://EVIL.com/page" }
        (some ⟨⟨0, 0⟩, []⟩) (NetOutcome.ok 200 "x" [] "u") 1).1.status_code = 403 ∧
    Effect.netCall "GET" "http://EVIL.com/page" ∉
      (fetch_url ⟨["evil.com"], ["evil.com"], true, true⟩
        { url := "http://EVIL.com/page" }
        (some ⟨⟨0, 0⟩, []⟩) (NetOutcome.ok 200 "x" [] "u") 1).2.2 :=
  ⟨(blocked_domain_rejected_without_network ⟨["evil.com"], ["evil.com"], true, true⟩
      { url := "http://EVIL.com/page" } (some ⟨⟨0, 0⟩, []⟩)
      (NetOutcome.ok 200 "x" [] "u") 1 "EVIL.com" "evil.com"
      rfl (by decide) (by decide)).1,
   (blocked_domain_rejected_without_network ⟨["evil.com"], ["evil.com"], true, true⟩
      { url := "http://EVIL.com/page" } (some ⟨⟨0, 0⟩, []⟩)
      (NetOutcome.ok 200 "x" [] "u") 1 "EVIL.com" "evil.com"
      rfl (by decide) (by decide)).2.2 "GET" "http://EVIL.com/page"⟩

/-- `bulk_fetch` returns one result per input URL. -/
theorem bulk_fetch_length (urls : List String)
    (outcome : Nat → Except String ProxyResponse) :
    (bulk_fetch urls outcome).1.length = urls.length := by
  simp [bulk_fetch]

/-- C3: `bulk_fetch` returns exactly one result per input URL, in input
order: the slot at index `i` is determined by that slot's own outcome
alone — the `ProxyResponse` task `i` returned, or, when the underlying
`fetch_url` call raised, a failure response carrying `urls[i]` with the
exception's message; the other indices are untouched by it. -/
theorem bulk_fetch_one_result_per_url (urls : List String)
    (outcome : Nat → Except String ProxyResponse) :
    (bulk_fetch urls outcome).1.length = urls.length ∧
    (∀ i (h : i < urls.length),
      (bulk_fetch urls outcome).1.get ⟨i, by rw [bulk_fetch_length]; exact h⟩ =
        match outcome i with
        | Except.ok r => r
        | Except.error msg => bulk_exc_response (urls[i]) msg) ∧
    (∀ i (h : i < urls.length) (msg : String), outcome i = Except.error msg →
      ((bulk_fetch urls outcome).1.get ⟨i, by rw [bulk_fetch_length]; exact h⟩).url
          = urls[i] ∧
      ((bulk_fetch urls outcome).1.get ⟨i, by rw [bulk_fetch_length]; exact h⟩).success
          = false ∧
      ((bulk_fetch urls outcome).1.get ⟨i, by rw [bulk_fetch_length]; exact h⟩).error
          = some msg) := by
  have hElem : ∀ i (h : i < urls.length),
      (bulk_fetch urls outcome).1.get ⟨i, by rw [bulk_fetch_length]; exact h⟩ =
        match outcome i with
        | Except.ok r => r
        | Except.error msg => bulk_exc_response (urls[i]) msg := by
    intro i h
    simp only [bulk_fetch, List.get_eq_getElem, List.getElem_map,
      List.getElem_enum, List.getElem_range, List.getD_eq_getElem]
    rcases ho : outcome i with msg | r <;>
      simp [ho, List.getElem?_eq_getElem h]
  refine ⟨bulk_fetch_length urls outcome, hElem, fun i h msg hmsg => ?_⟩
  rw [hElem i h, hmsg]
  exact ⟨rfl, rfl, rfl⟩

/-- Witness for C3 on the spec's own example shape: three URLs where
slot 1 raises and slots 0 and 2 succeed. -/
theorem bulk_fetch_one_result_per_url_witness :
    (bulk_fetch ["u1", "u2", "u3"]
        (fun i => if i = 1 then Except.error "boom"
                  else Except.ok (bulk_exc_response "done" "ok"))).1.length = 3 ∧
    ((bulk_fetch ["u1", "u2", "u3"]
        (fun i => if i = 1 then Except.error "boom"
                  else Except.ok (bulk_exc_response "done" "ok"))).1.get ⟨1, by
      rw [bulk_fetch_length]; decide⟩).url = "u2" :=
  ⟨by
    rw [(bulk_fetch_one_result_per_url ["u1", "u2", "u3"]
      (fun i => if i = 1 then Except.error "boom"
                else Except.ok (bulk_exc_response "done" "ok"))).1]
    rfl,
   ((bulk_fetch_one_result_per_url ["u1", "u2", "u3"]
      (fun i => if i = 1 then Except.error "boom"
                else Except.ok (bulk_exc_response "done" "ok"))).2.2 1 (by decide)
      "boom" rfl).1⟩

/-- C5 counterexample: a request that explicitly supplies the empty
list as `allow_status_codes`, against a URL answering HTTP 200, yields
`success = true` although 200 is not a member of the supplied set:
Python's `not request.allow_status_codes` is true for the empty list, so
the code falls back to the default 200-399 range instead of membership. -/
theorem empty_allow_status_codes_counterexample :
    (fetch_url ⟨[], [], false, true⟩
        { url := "http://example.com/", allow_status_codes := some [] }
        none (NetOutcome.ok 200 "ok" [] "http://example.com/") 1).1.success
      = true ∧
    ([] : List Nat).contains 200 = false := by
  exact ⟨rfl, rfl⟩

/-- C5 (amended): for every completed network response the `success`
flag is membership of the status in `allow_status_codes` when a
non-empty list was supplied, and the default 200-399 range when none was
supplied or the supplied list is empty. -/
theorem success_flag_from_allowed_status_codes (ctx : ProxyCtx)
    (req : FetchRequest) (redis : Option RedisState) (s : Nat)
    (content : String) (hdrs : List (String × String)) (fu : String)
    (elapsed : Nat)
    (hdom : is_domain_allowed ctx.blocked_domains ctx.allowed_domains
      req.url = true)
    (hrate : (check_rate_limit ctx.rate_limiting_enabled redis).1 = true)
    (hcache : (if req.cache_enabled then
        get_cached (check_rate_limit ctx.rate_limiting_enabled redis).2
          (generate_cache_key req)
      else none) = none) :
    (fetch_url ctx req redis (NetOutcome.ok s content hdrs fu)
        elapsed).1.status_code = s ∧
    (fetch_url ctx req redis (NetOutcome.ok s content hdrs fu)
        elapsed).1.success =
      match req.allow_status_codes with
      | some (c :: cs) => (c :: cs).contains s
      | _ => decide (200 ≤ s ∧ s < 400) := by
  rcases hcr : check_rate_limit ctx.rate_limiting_enabled redis with ⟨ok, r1⟩
  rw [hcr] at hrate hcache
  simp at hrate
  subst hrate
  refine ⟨by simp [fetch_url, hdom, hcr, hcache], ?_⟩
  rcases hascs : req.allow_status_codes with _ | ⟨_ | ⟨c, cs⟩⟩ <;>
    simp [fetch_url, hdom, hcr, hcache, status_success, hascs]

/-- Witness for C5: `allowed_status_codes=[404]` against a URL returning
HTTP 404 yields `succeeded=true`. -/
theorem success_flag_from_allowed_status_codes_witness :
    (fetch_url ⟨[], [], false, true⟩
        { url := "http://example.com/missing", allow_status_codes := some [404] }
        none (NetOutcome.ok 404 "not found" [] "http://example.com/missing")
        1).1.success = true := by
  rw [(success_flag_from_allowed_status_codes ⟨[], [], false, true⟩
      { url := "http://example.com/missing", allow_status_codes := some [404] }
      none 404 "not found" [] "http://example.com/missing" 1
      (by decide) rfl rfl).2]
  decide

/-- C6 (amended): when `cache_enabled` is set and the request's
fingerprint has a valid cached entry (and the request passes the domain
and rate checks), `fetch_url` returns the stored result with its
elapsed-time field re-stamped to the current call's elapsed time and
performs no outbound network call; the cache hit is marked in the
display output (the `cached=True` console line), not in the returned
`ProxyResponse`. -/
theorem cache_hit_returns_restamped_stored_result (ctx : ProxyCtx)
    (req : FetchRequest) (redis : Option RedisState) (c : ProxyResponse)
    (net : NetOutcome) (elapsed : Nat)
    (hdom : is_domain_allowed ctx.blocked_domains ctx.allowed_domains
      req.url = true)
    (hrate : (check_rate_limit ctx.rate_limiting_enabled redis).1 = true)
    (hce : req.cache_enabled = true)
    (hhit : get_cached (check_rate_limit ctx.rate_limiting_enabled redis).2
      (generate_cache_key req) = some c) :
    (fetch_url ctx req redis net elapsed).1 =
      { c with execution_time := elapsed } ∧
    (∀ m u, Effect.netCall m u ∉ (fetch_url ctx req redis net elapsed).2.2) ∧
    (ctx.show_requests = true →
      Effect.display true ∈ (fetch_url ctx req redis net elapsed).2.2) := by
  rcases hcr : check_rate_limit ctx.rate_limiting_enabled redis with ⟨ok, r1⟩
  rw [hcr] at hrate hhit
  simp at hrate hhit
  subst hrate
  refine ⟨?_, ?_, ?_⟩ <;> simp [fetch_url, hdom, hcr, hce, hhit]

/-- Witness for C6: a concrete cache hit returns the stored response
re-stamped to the current elapsed time. -/
theorem cache_hit_returns_restamped_stored_result_witness :
    (fetch_url demo_ctx demo_req
        (some ⟨⟨0, 0⟩, [(generate_cache_key demo_req, demo_cached)]⟩)
        demo_net 5).1 = { demo_cached with execution_time := 5 } ∧
    Effect.netCall "GET" "http://example.com/" ∉
      (fetch_url demo_ctx demo_req
        (some ⟨⟨0, 0⟩, [(generate_cache_key demo_req, demo_cached)]⟩)
        demo_net 5).2.2 :=
  ⟨(cache_hit_returns_restamped_stored_result demo_ctx demo_req
      (some ⟨⟨0, 0⟩, [(generate_cache_key demo_req, demo_cached)]⟩)
      demo_cached demo_net 5 (by decide) rfl rfl rfl).1,
   (cache_hit_returns_restamped_stored_result demo_ctx demo_req
      (some ⟨⟨0, 0⟩, [(generate_cache_key demo_req, demo_cached)]⟩)
      demo_cached demo_net 5 (by decide) rfl rfl rfl).2.1 "GET"
      "http://example.com/"⟩

/-- C6 counterexample: the `ProxyResponse` returned for a cache hit is
equal, field for field, to the one a fresh network fetch of the same URL
returns — so the returned result carries no cache-hit marker (the
dataclass has no `cached` field; only the console display distinguishes
the two, as the differing effect traces show). -/
theorem cache_hit_result_unmarked_counterexample :
    (fetch_url demo_ctx demo_req
        (some ⟨⟨0, 0⟩, [(generate_cache_key demo_req, demo_cached)]⟩)
        demo_net 5).1 =
      (fetch_url demo_ctx demo_req (some ⟨⟨0, 0⟩, []⟩) demo_net 5).1 ∧
    (fetch_url demo_ctx demo_req
        (some ⟨⟨0, 0⟩, [(generate_cache_key demo_req, demo_cached)]⟩)
        demo_net 5).2.2 = [Effect.display false, Effect.display true] ∧
    Effect.netCall "GET" "http://example.com/" ∈
      (fetch_url demo_ctx demo_req (some ⟨⟨0, 0⟩, []⟩) demo_net 5).2.2 := by
  refine ⟨by decide, by decide, by decide⟩

/-- C7: the current `fetch_url` appends no intelligence record on any
path — its effect trace never contains an intelligence write, in
particular not after a successfully completed fetch — whereas the
archived version's success tail appends exactly one record whenever
intelligence recording is enabled (the behaviour the claim describes,
dropped from the current source). -/
theorem no_intelligence_record_after_fetch :
    (∀ (ctx : ProxyCtx) (req : FetchRequest) (redis : Option RedisState)
      (net : NetOutcome) (elapsed : Nat),
      Effect.intelWrite ∉ (fetch_url ctx req redis net elapsed).2.2) ∧
    (∀ cw : Option String,
      (old_version_success_tail true cw).count Effect.intelWrite = 1) := by
  constructor
  · intro ctx req redis net elapsed
    obtain ⟨bd, ad, ren, shw⟩ := ctx
    rcases hcr : check_rate_limit ren redis with ⟨ok, r1⟩
    cases shw <;> rcases net with ⟨s, c, h, f⟩ | _ | m <;>
      simp only [fetch_url, hcr] <;>
      split <;> (try split) <;> (try split) <;> (try split) <;> simp
  · rintro (_ | k) <;> simp [old_version_success_tail]

/-- Witness for C7: no intelligence write in the trace of a concrete
successful fetch; exactly one in the archived success tail. -/
theorem no_intelligence_record_after_fetch_witness :
    Effect.intelWrite ∉ (fetch_url demo_ctx demo_req none demo_net 1).2.2 ∧
    (old_version_success_tail true (some "key")).count Effect.intelWrite = 1 :=
  ⟨no_intelligence_record_after_fetch.1 demo_ctx demo_req none demo_net 1,
   no_intelligence_record_after_fetch.2 (some "key")⟩

/-- C8 counterexample: the malformed URL `http://[` makes `urlparse`
raise `ValueError("Invalid IPv6 URL")`, and the opencode plugin's
`_is_domain_allowed` — a code path that evaluates domain policy —
returns `True` for it (fail open), so not every code path treats a
malformed URL as blocked. -/
theorem malformed_url_fail_open_counterexample :
    urlparse_netloc "http://[" = Except.error "Invalid IPv6 URL" ∧
    opencode_is_domain_allowed ["evil.com"] [] "http://[" = true :=
  ⟨rfl, rfl⟩

/-- C8 (amended): on every URL whose host extraction raises, the proxy
service's `_is_domain_allowed` fails closed (returns false), while the
opencode plugin's `_is_domain_allowed` fails open (returns true) — the
fail-closed treatment holds on the proxy's code path but not on every
code path that evaluates domain policy. -/
theorem malformed_url_fail_closed_vs_fail_open
    (blocked_domains allowed_domains : List String) (url msg : String)
    (herr : urlparse_netloc url = Except.error msg) :
    is_domain_allowed blocked_domains allowed_domains url = false ∧
    opencode_is_domain_allowed blocked_domains allowed_domains url = true := by
  constructor <;>
    simp [is_domain_allowed, opencode_is_domain_allowed, herr]

/-- Witness for C8: both filters evaluated at the malformed URL
`http://[` with a non-trivial blocked list. -/
theorem malformed_url_fail_closed_vs_fail_open_witness :
    is_domain_allowed ["evil.com"] [] "http://[" = false ∧
    opencode_is_domain_allowed ["evil.com"] [] "http://[" = true :=
  malformed_url_fail_closed_vs_fail_open ["evil.com"] [] "http://["
    "Invalid IPv6 URL" rfl

/-- C9: evaluating the `GET /config` handler on a configuration whose
`security.api_key` is `"secret"`: the response has the key redacted (the
claim's redaction half holds), but because `dict.copy()` is shallow the
handler's assignment writes through the shared nested `security` dict,
so the proxy's stored configuration afterwards also reads
`"***REDACTED***"` — the stored in-memory configuration is NOT unchanged. -/
theorem get_config_mutates_stored_api_key :
    security_api_key demo_config demo_config.top = some (PyVal.vstr "secret") ∧
    security_api_key (get_config demo_config).2 (get_config demo_config).1 =
      some (PyVal.vstr "***REDACTED***") ∧
    security_api_key (get_config demo_config).2 (get_config demo_config).2.top =
      some (PyVal.vstr "***REDACTED***") := by
  refine ⟨rfl, rfl, rfl⟩

/-- C10: per call, the `POST /fetch/bulk` handler performs the bulk
fetch of the given URL list twice — the trace of underlying `fetch_url`
invocations is the URL list twice over, not once — because the handler
body awaits `proxy.bulk_fetch` at line 766 and again at line 785. -/
theorem bulk_endpoint_runs_bulk_fetch_twice (req : BulkFetchRequest)
    (out1 out2 : Nat → Except String ProxyResponse) :
    (bulk_fetch_urls_endpoint req out1 out2).2 = req.urls ++ req.urls := by
  simp [bulk_fetch_urls_endpoint, bulk_fetch]
